import Mathlib

/-!
Verification of the `radicale_auth_ldap` LDAP authentication plugin
(`radicale_auth_ldap/__init__.py`) against its natural-language
specification.

The plugin's `Auth.login` performs a two-phase directory authentication:
a service-bound (or anonymous) connection searches for the login's entry,
then a second connection binds as the found entry's distinguished name
with the supplied password, optionally confirmed by an LDAP "who am i"
extended operation.

The embedding below is a shallow model of `Auth.login`: outcomes of the
external `ldap3` library calls (bind results, search responses, who-am-i
answers, raised exceptions) are supplied by an oracle record `DirEnv`,
and the function additionally returns a trace of the directory-facing
operations and log lines it performed, so that resource-release and
logging properties can be stated.
-/

namespace RadicaleLdapAuth

/-- A directory entry as consumed by `login`: the distinguished name and the
value of the configured unique attribute (`users[0]['dn']`,
`users[0]['attributes'][self.ldap_attribute]`). -/
structure LDAPEntry where
  dn : String
  attrValue : String
deriving DecidableEq, Repr

/-- Exceptions raised by directory-facing calls, as distinguished by the
`except` clauses of `Auth.login`: `LDAPInvalidCredentialsResult` versus any
other exception (carrying its message). -/
inductive LDAPErr where
  | invalidCredentials
  | err (msg : String)
deriving DecidableEq, Repr

/-- The resolved configuration held by an `Auth` instance.  Radicale stores
`ldap_support_extended` as the raw string which `login` re-parses with
`parse_bool` on every call. -/
structure AuthCfg where
  ldap_url : String
  ldap_base : String
  ldap_filter : String
  ldap_attribute : String
  ldap_binddn : String
  ldap_password : String
  ldap_scope : String
  ldap_support_extended : String
deriving DecidableEq, Repr

/-- Oracle for the outcomes of the external `ldap3` calls made during one
`login` call: the service connection's bind success flag (returned by
`conn.bind()` and discarded by the code), the service-side who-am-i probe
(which may raise), the search response, the verification bind (which may
raise or return a result code for `conn.result['result']`), and the
verification who-am-i (which may raise, or return `None` or an identity
string). -/
structure DirEnv where
  serviceBindOk : Bool
  serviceWhoAmI : Except LDAPErr (Option String)
  searchResult : Except LDAPErr (List LDAPEntry)
  verifyBind : Except LDAPErr Nat
  verifyWhoAmI : Except LDAPErr (Option String)
deriving Repr

/-- One observable event of a `login` call: a directory-facing operation on
connection 1 (service) or 2 (verification), or an emitted log line. -/
inductive Ev where
  | connect (connId : Nat) (url : String) (creds : Option (String × String))
  | bind (connId : Nat)
  | search (connId : Nat) (base scope filter : String) (attrs : List String)
  | whoami (connId : Nat)
  | unbind (connId : Nat)
  | log (msg : String)
deriving DecidableEq, Repr

/-- The strict boolean parser `parse_bool` of the source: accepts exactly
the strings listed in its two membership tests and raises
`ValueError("Not a bool")` on anything else. -/
def parse_bool (v : String) : Except String Bool :=
  if v = "True" ∨ v = "true" ∨ v = "yes" then Except.ok true
  else if v = "False" ∨ v = "false" ∨ v = "no" then Except.ok false
  else Except.error "Not a bool"

/-- RFC 4515 escaping of one character of an attribute value destined for a
search filter: the metacharacters star, parentheses, backslash and NUL are
replaced by backslash-hex escapes, all other characters pass through. -/
def escapeChar (c : Char) : List Char :=
  if c = '*' then ['\\', '2', 'a']
  else if c = '(' then ['\\', '2', '8']
  else if c = ')' then ['\\', '2', '9']
  else if c = '\\' then ['\\', '5', 'c']
  else if c = Char.ofNat 0 then ['\\', '0', '0']
  else [c]

/-- Modelled from the spec: `ldap3imports.escape_attribute_value`, imported
by the plugin from its `radicale_auth_ldap/ldap3imports.py` module which is
not part of the sources under verification.  Per the spec it applies
directory-filter metacharacter escaping to the raw login value, escaping
star, parentheses, backslash and NUL per RFC 4515. -/
def escape_attribute_value (s : String) : String :=
  String.mk (s.data.flatMap escapeChar)

/-- The equality clause `"%s=%s" % (self.ldap_attribute, escaped login)`
that `login` calls `distinguished_name`. -/
def distinguishedName (cfg : AuthCfg) (login : String) : String :=
  cfg.ldap_attribute ++ "=" ++ escape_attribute_value login

/-- The search filter composed by `login`: wrapped with the configured
extra filter when that is non-empty (Python truthiness of `self.ldap_filter`),
the bare equality clause otherwise. -/
def filterString (cfg : AuthCfg) (login : String) : String :=
  if cfg.ldap_filter ≠ "" then
    "(&(" ++ distinguishedName cfg login ++ ")" ++ cfg.ldap_filter ++ ")"
  else
    distinguishedName cfg login

/-- Rendering of a who-am-i answer in a log line, matching Python string
interpolation of `None` or a string. -/
def showOpt : Option String → String
  | none => "None"
  | some s => s

/-- Rendering of a raised exception in a log line. -/
def errString : LDAPErr → String
  | LDAPErr.invalidCredentials => "invalid credentials"
  | LDAPErr.err m => m

/-- Python truthiness of the value of `whoami` in the extended branch:
`None` and the empty string are falsy, a non-empty identity is truthy. -/
def truthy : Option String → Bool
  | none => false
  | some s => decide (s ≠ "")

/-- Truthiness of the outcome of the verification who-am-i call: an
exception or falsy answer does not confirm, a non-empty identity does. -/
def whoamiTruthy : Except LDAPErr (Option String) → Bool
  | Except.ok o => truthy o
  | Except.error _ => false

/-- The log line produced by the best-effort who-am-i probe on the service
connection: the debug line on success, the error line when it raised. -/
def probeLog (env : DirEnv) : Ev :=
  match env.serviceWhoAmI with
  | Except.ok o => Ev.log ("LDAP whoami: " ++ showOpt o)
  | Except.error e => Ev.log ("LDAP error: " ++ errString e)

/-- Credentials of the service connection: the configured bind DN and
password when both are non-empty (Python truthiness of both), anonymous
otherwise. -/
def serviceCreds (cfg : AuthCfg) : Option (String × String) :=
  if cfg.ldap_binddn ≠ "" ∧ cfg.ldap_password ≠ "" then
    some (cfg.ldap_binddn, cfg.ldap_password)
  else none

/-- Events of a `login` call up to and including the search request:
service connect and bind (whose success flag the code discards), the
who-am-i probe and its logged outcome, the two debug lines, and the search
with the composed filter requesting only the configured attribute. -/
def preTrace (cfg : AuthCfg) (env : DirEnv) (login : String) : List Ev :=
  [Ev.connect 1 cfg.ldap_url (serviceCreds cfg),
   Ev.bind 1,
   Ev.whoami 1,
   probeLog env,
   Ev.log ("LDAP bind for " ++ distinguishedName cfg login ++ " in base " ++ cfg.ldap_base),
   Ev.log ("LDAP filter: " ++ filterString cfg login),
   Ev.search 1 cfg.ldap_base cfg.ldap_scope (filterString cfg login) [cfg.ldap_attribute]]

/-- The verification phase (the body of the `try` after an entry was found):
open a second connection with the found DN and the supplied password, bind
(which may raise, otherwise yields `conn.result['result']`), re-parse the
extended flag (a `ValueError` here is an exception inside the `try`), then
either call who-am-i (which may raise) and take its truthiness, or take
`result == 0`; unbind only when no exception occurred, since a raise skips
the `conn.unbind()` statement.  Returns the confirmation outcome and the
events of this phase. -/
def verifyPhase (cfg : AuthCfg) (env : DirEnv) (userDn password : String) :
    Except LDAPErr Bool × List Ev :=
  let t0 : List Ev := [Ev.connect 2 cfg.ldap_url (some (userDn, password)), Ev.bind 2]
  match env.verifyBind with
  | Except.error e => (Except.error e, t0)
  | Except.ok rc =>
    let t1 := t0 ++ [Ev.log ("LDAP result: " ++ toString rc)]
    match parse_bool cfg.ldap_support_extended with
    | Except.error m => (Except.error (LDAPErr.err m), t1)
    | Except.ok true =>
      match env.verifyWhoAmI with
      | Except.error e => (Except.error e, t1 ++ [Ev.whoami 2])
      | Except.ok o =>
          (Except.ok (truthy o),
           t1 ++ [Ev.whoami 2, Ev.log ("LDAP whoami: " ++ showOpt o), Ev.unbind 2])
    | Except.ok false =>
        (Except.ok (rc == 0),
         t1 ++ [Ev.log "LDAP skip extended: call whoami", Ev.unbind 2])

/-- Shallow embedding of `Auth.login`.  The result is `Except` because an
exception raised by the search itself is not caught anywhere in `login`;
exceptions of the verification phase are caught by the two `except` clauses
and collapse to the failure marker `""`. -/
def loginRun (cfg : AuthCfg) (env : DirEnv) (login password : String) :
    Except LDAPErr String × List Ev :=
  let pre := preTrace cfg env login
  match env.searchResult with
  | Except.error e => (Except.error e, pre)
  | Except.ok users =>
    let t1 := pre ++ [Ev.unbind 1]
    match users with
    | [] => (Except.ok "", t1 ++ [Ev.log ("LDAP user " ++ login ++ " not found")])
    | u :: _ =>
      let t2 := t1 ++ [Ev.log ("LDAP user " ++ u.attrValue ++ " (" ++ u.dn ++ ") found")]
      let v := verifyPhase cfg env u.dn password
      let t3 := t2 ++ v.2
      match v.1 with
      | Except.ok true => (Except.ok login, t3 ++ [Ev.log "LDAP bind OK"])
      | Except.ok false => (Except.ok "", t3 ++ [Ev.log "LDAP bind failed"])
      | Except.error LDAPErr.invalidCredentials =>
          (Except.ok "", t3 ++ [Ev.log "LDAP invalid credentials"])
      | Except.error (LDAPErr.err m) =>
          (Except.ok "", t3 ++ [Ev.log ("LDAP error " ++ m)])

/-- Strip trailing slash characters, as `rstrip("/")` does on the URL. -/
def rstripSlashes (s : String) : String :=
  String.mk (s.data.reverse.dropWhile (fun c => c == '/')).reverse

/-- Modelled from the spec: Radicale's configuration loader (an external
collaborator, not part of the sources under verification) validates each
schema entry by applying its declared type callable to the raw string value;
`PLUGIN_CONFIG_SCHEMA` declares `parse_bool` as the type of
`ldap_support_extended`, so a raising `parse_bool` aborts the load and the
authenticator is never constructed.  The stored flag keeps the raw string,
which `login` re-parses on every call. -/
def constructAuth (url base filterStr attr binddn pw scope extRaw : String) :
    Except String AuthCfg :=
  match parse_bool extRaw with
  | Except.error e => Except.error e
  | Except.ok _ =>
      Except.ok ⟨rstripSlashes url, base, filterStr, attr, binddn, pw, scope, extRaw⟩

/-- Does this event open connection `i`? -/
def isConn (i : Nat) : Ev → Bool
  | Ev.connect j _ _ => j == i
  | _ => false

/-- Does this event unbind connection `i`? -/
def isUnbind (i : Nat) : Ev → Bool
  | Ev.unbind j => j == i
  | _ => false

/-- Number of times connection `i` is opened in a trace. -/
def opens (t : List Ev) (i : Nat) : Nat := (t.filter (isConn i)).length

/-- Number of times connection `i` is unbound in a trace. -/
def closes (t : List Ev) (i : Nat) : Nat := (t.filter (isUnbind i)).length

/-! Concrete fixtures used to instantiate the theorems below. -/

/-- A minimal configuration: no extra filter, anonymous service bind,
extended confirmation enabled. -/
def cfgA : AuthCfg := ⟨"ldap://h", "dc=e", "", "uid", "", "", "LEVEL", "True"⟩

/-- Like `cfgA` but with extended confirmation disabled. -/
def cfgNoExt : AuthCfg := { cfgA with ldap_support_extended := "no" }

/-- Like `cfgA` but with a malformed extended-confirmation flag. -/
def cfgBad : AuthCfg := { cfgA with ldap_support_extended := "maybe" }

/-- Like `cfgA` but with an extra search filter and service credentials. -/
def cfgFilt : AuthCfg :=
  { cfgA with ldap_filter := "(objectclass=user)", ldap_binddn := "cn=svc",
              ldap_password := "s3cret" }

/-- Discriminator for `Except` outcomes: did the phase complete without an
exception? -/
def exceptOk {α β : Type} : Except α β → Bool
  | Except.ok _ => true
  | Except.error _ => false

/-- A directory entry for the fixtures. -/
def entA : LDAPEntry := ⟨"uid=u,dc=e", "u"⟩

/-- A second directory entry, with a different DN and attribute value. -/
def entB : LDAPEntry := ⟨"uid=v,dc=e", "v"⟩

/-- A fully successful environment: search finds `entA`, the verification
bind returns result code 0 and who-am-i answers with an identity. -/
def envOk : DirEnv :=
  ⟨true, Except.ok (some "cn=admin"), Except.ok [entA], Except.ok 0,
   Except.ok (some "dn:uid=u,dc=e")⟩

/-- Like `envOk` but the verification who-am-i raises a generic exception. -/
def envBoom : DirEnv := { envOk with verifyWhoAmI := Except.error (LDAPErr.err "boom") }

/-- Like `envOk` but the search returns no entries. -/
def envEmpty : DirEnv := { envOk with searchResult := Except.ok [] }

/-- Like `envOk` but the verification bind raises invalid credentials. -/
def envInvalid : DirEnv := { envOk with verifyBind := Except.error LDAPErr.invalidCredentials }

/-- Like `envOk` but the service-side who-am-i probe raises. -/
def envProbeErr : DirEnv := { envOk with serviceWhoAmI := Except.error (LDAPErr.err "probe") }

/-- Like `envOk` but the search itself raises. -/
def envSearchErr : DirEnv :=
  { envOk with searchResult := Except.error (LDAPErr.err "search down") }

/-- Like `envOk` but the verification bind returns a non-zero result code
and who-am-i answers `None`. -/
def envBindFail : DirEnv :=
  { envOk with verifyBind := Except.ok 49, verifyWhoAmI := Except.ok none }

/-! Helper lemmas shared by the claim theorems. -/

/-- Whatever the probe outcome, its logged event is a `log` event. -/
lemma probeLog_isConn (env : DirEnv) (i : Nat) : isConn i (probeLog env) = false := by
  rcases h : env.serviceWhoAmI with e | o <;> simp [probeLog, h, isConn]

/-- Whatever the probe outcome, its logged event is not an unbind. -/
lemma probeLog_isUnbind (env : DirEnv) (i : Nat) : isUnbind i (probeLog env) = false := by
  rcases h : env.serviceWhoAmI with e | o <;> simp [probeLog, h, isUnbind]

/-- The trace of every `login` call extends the pre-search trace. -/
lemma loginRun_trace_shape (cfg : AuthCfg) (env : DirEnv) (l p : String) :
    preTrace cfg env l <+: (loginRun cfg env l p).2 := by
  simp only [loginRun]
  rcases h : env.searchResult with e | users
  · simp
  · rcases users with _ | ⟨u, rest⟩
    · simp
    · rcases hv : (verifyPhase cfg env u.dn p).1 with e | b
      · rcases e with _ | m <;>
          simp [hv, List.append_assoc, List.prefix_append]
      · rcases b with _ | _ <;>
          simp [hv, List.append_assoc, List.prefix_append]

/-- When the search succeeded with a first entry `u`, the overall result is
determined by the verification phase outcome exactly as the two `except`
clauses and the final `if whoami` dictate. -/
lemma loginRun_found_result (cfg : AuthCfg) (env : DirEnv) (l p : String)
    (u : LDAPEntry) (rest : List LDAPEntry)
    (hs : env.searchResult = Except.ok (u :: rest)) :
    (loginRun cfg env l p).1 =
      match (verifyPhase cfg env u.dn p).1 with
      | Except.ok true => Except.ok l
      | Except.ok false => Except.ok ""
      | Except.error _ => Except.ok "" := by
  simp only [loginRun, hs]
  rcases hv : (verifyPhase cfg env u.dn p).1 with e | b
  · rcases e with _ | m <;> simp [hv]
  · rcases b with _ | _ <;> simp [hv]

/-- When the search succeeded with a first entry `u`, the trace consists of
the pre-search trace, the service unbind, the found log, the verification
phase trace, and a final outcome log. -/
lemma loginRun_found_trace (cfg : AuthCfg) (env : DirEnv) (l p : String)
    (u : LDAPEntry) (rest : List LDAPEntry)
    (hs : env.searchResult = Except.ok (u :: rest)) :
    ∃ msg, (loginRun cfg env l p).2 =
      preTrace cfg env l ++ [Ev.unbind 1,
        Ev.log ("LDAP user " ++ u.attrValue ++ " (" ++ u.dn ++ ") found")] ++
      (verifyPhase cfg env u.dn p).2 ++ [Ev.log msg] := by
  simp only [loginRun, hs]
  rcases hv : (verifyPhase cfg env u.dn p).1 with e | b
  · rcases e with _ | m
    · exact ⟨"LDAP invalid credentials", by simp [hv, List.append_assoc]⟩
    · exact ⟨"LDAP error " ++ m, by simp [hv, List.append_assoc]⟩
  · rcases b with _ | _
    · exact ⟨"LDAP bind failed", by simp [hv, List.append_assoc]⟩
    · exact ⟨"LDAP bind OK", by simp [hv, List.append_assoc]⟩

/-- Every character emitted by `escapeChar` is harmless: never a raw star,
parenthesis or NUL. -/
lemma escapeChar_safe (c d : Char) (hd : d ∈ escapeChar c) :
    d ≠ '*' ∧ d ≠ '(' ∧ d ≠ ')' ∧ d ≠ Char.ofNat 0 := by
  unfold escapeChar at hd
  split_ifs at hd with h1 h2 h3 h4 h5 <;> simp at hd
  · rcases hd with rfl | rfl | rfl <;> decide
  · rcases hd with rfl | rfl | rfl <;> decide
  · rcases hd with rfl | rfl | rfl <;> decide
  · rcases hd with rfl | rfl | rfl <;> decide
  · rcases hd with rfl | rfl | rfl <;> decide
  · subst hd; exact ⟨h1, h2, h3, h5⟩

/-- C9: The boolean parser maps exactly the strings "True", "true" and
"yes" to true and exactly the strings "False", "false" and "no" to false,
and raises a value error on every other input value. -/
theorem parse_bool_exact (s : String) :
    (parse_bool s = Except.ok true ↔ (s = "True" ∨ s = "true" ∨ s = "yes")) ∧
    (parse_bool s = Except.ok false ↔ (s = "False" ∨ s = "false" ∨ s = "no")) ∧
    (¬(s = "True" ∨ s = "true" ∨ s = "yes") →
      ¬(s = "False" ∨ s = "false" ∨ s = "no") →
      parse_bool s = Except.error "Not a bool") := by
  refine ⟨⟨?_, ?_⟩, ⟨?_, ?_⟩, ?_⟩
  · intro h
    unfold parse_bool at h
    split_ifs at h with h1 h2
    · exact h1
    · exact absurd h (by simp)
  · intro h
    unfold parse_bool
    rw [if_pos h]
  · intro h
    unfold parse_bool at h
    split_ifs at h with h1 h2
    · exact absurd h (by simp)
    · exact h2
  · intro h
    have hn : ¬(s = "True" ∨ s = "true" ∨ s = "yes") := by
      rcases h with rfl | rfl | rfl <;> decide
    unfold parse_bool
    rw [if_neg hn, if_pos h]
  · intro h1 h2
    unfold parse_bool
    rw [if_neg h1, if_neg h2]

/-- Witness for C9: concrete evaluations of the parser on an accepted true
string, an accepted false string, and a rejected string. -/
theorem parse_bool_exact_witness :
    parse_bool "yes" = Except.ok true ∧
    parse_bool "False" = Except.ok false ∧
    parse_bool "maybe" = Except.error "Not a bool" :=
  ⟨(parse_bool_exact "yes").1.mpr (Or.inr (Or.inr rfl)),
   (parse_bool_exact "False").2.1.mpr (Or.inl rfl),
   (parse_bool_exact "maybe").2.2 (by decide) (by decide)⟩

/-- C7: For every login whose search phase returns zero entries, login logs
a "user not found" message and returns the empty failure result, and never
raises an exception to the caller on this path. -/
theorem login_not_found (cfg : AuthCfg) (env : DirEnv) (l p : String)
    (hs : env.searchResult = Except.ok []) :
    (loginRun cfg env l p).1 = Except.ok "" ∧
    Ev.log ("LDAP user " ++ l ++ " not found") ∈ (loginRun cfg env l p).2 := by
  simp [loginRun, hs]

/-- Witness for C7: the fixture environment whose search finds nobody. -/
theorem login_not_found_witness :
    (loginRun cfgA envEmpty "alice" "pw").1 = Except.ok "" ∧
    Ev.log ("LDAP user " ++ "alice" ++ " not found") ∈ (loginRun cfgA envEmpty "alice" "pw").2 :=
  login_not_found cfgA envEmpty "alice" "pw" rfl

/-- C3: The search filter is `attribute=escaped(login)`, wrapped as
`(&(attribute=escaped-login)extra-filter)` exactly when the configured
extra filter is non-empty; this filter is the one passed to the search
operation; and the escaping neutralizes the RFC 4515 metacharacters, so
the escaped login contains no raw star, parenthesis or NUL. -/
theorem login_filter_escaped (cfg : AuthCfg) (env : DirEnv) (l p : String) :
    (filterString cfg l =
      if cfg.ldap_filter = "" then cfg.ldap_attribute ++ "=" ++ escape_attribute_value l
      else "(&(" ++ (cfg.ldap_attribute ++ "=" ++ escape_attribute_value l) ++ ")" ++
        cfg.ldap_filter ++ ")") ∧
    Ev.search 1 cfg.ldap_base cfg.ldap_scope (filterString cfg l) [cfg.ldap_attribute] ∈
      (loginRun cfg env l p).2 ∧
    (∀ c ∈ (escape_attribute_value l).data, c ≠ '*' ∧ c ≠ '(' ∧ c ≠ ')' ∧ c ≠ Char.ofNat 0) := by
  refine ⟨?_, ?_, ?_⟩
  · by_cases h : cfg.ldap_filter = "" <;> simp [filterString, distinguishedName, h]
  · refine (loginRun_trace_shape cfg env l p).subset ?_
    simp [preTrace]
  · intro c hc
    have hmem : c ∈ l.data.flatMap escapeChar := hc
    rw [List.mem_flatMap] at hmem
    obtain ⟨a, _, ha⟩ := hmem
    exact escapeChar_safe a c ha

/-- Witness for C3: the injection attempt from the spec is fully
neutralized and the composed filters match on concrete configurations. -/
theorem login_filter_escaped_witness :
    escape_attribute_value "*)(uid=*" = "\\2a\\29\\28uid=\\2a" ∧
    filterString cfgFilt "bob" = "(&(uid=bob)(objectclass=user))" ∧
    filterString cfgA "bob" = "uid=bob" ∧
    Ev.search 1 cfgA.ldap_base cfgA.ldap_scope (filterString cfgA "bob") [cfgA.ldap_attribute] ∈
      (loginRun cfgA envOk "bob" "pw").2 ∧
    ('*' ∈ (escape_attribute_value "*)(uid=*").data → False) :=
  ⟨rfl, rfl, rfl, (login_filter_escaped cfgA envOk "bob" "pw").2.1,
   fun h => ((login_filter_escaped cfgA envOk "*)(uid=*" "pw").2.2 '*' h).1 rfl⟩

/-- Counting connection openings distributes over trace concatenation. -/
lemma opens_append (s t : List Ev) (i : Nat) :
    opens (s ++ t) i = opens s i + opens t i := by
  simp [opens, List.filter_append]

/-- Counting unbinds distributes over trace concatenation. -/
lemma closes_append (s t : List Ev) (i : Nat) :
    closes (s ++ t) i = closes s i + closes t i := by
  simp [closes, List.filter_append]

/-- The pre-search trace opens exactly the service connection. -/
lemma preTrace_opens (cfg : AuthCfg) (env : DirEnv) (l : String) :
    opens (preTrace cfg env l) 1 = 1 ∧ opens (preTrace cfg env l) 2 = 0 := by
  rcases h : env.serviceWhoAmI with e | o <;>
    simp [preTrace, opens, isConn, probeLog, h]

/-- The pre-search trace unbinds nothing. -/
lemma preTrace_closes (cfg : AuthCfg) (env : DirEnv) (l : String) (i : Nat) :
    closes (preTrace cfg env l) i = 0 := by
  rcases h : env.serviceWhoAmI with e | o <;>
    simp [preTrace, closes, isUnbind, probeLog, h]

/-- The verification phase opens exactly connection 2, never touches
connection 1, and unbinds connection 2 exactly when it did not raise. -/
lemma verifyPhase_counts (cfg : AuthCfg) (env : DirEnv) (dn p : String) :
    opens (verifyPhase cfg env dn p).2 1 = 0 ∧
    closes (verifyPhase cfg env dn p).2 1 = 0 ∧
    opens (verifyPhase cfg env dn p).2 2 = 1 ∧
    closes (verifyPhase cfg env dn p).2 2 =
      (if exceptOk (verifyPhase cfg env dn p).1 then 1 else 0) := by
  obtain ⟨sb, sw, sr, vb, vw⟩ := env
  rcases vb with e | rc
  · simp [verifyPhase, opens, closes, isConn, isUnbind, exceptOk]
  · rcases hp : parse_bool cfg.ldap_support_extended with m | b
    · simp [verifyPhase, hp, opens, closes, isConn, isUnbind, exceptOk]
    · rcases b with _ | _
      · simp [verifyPhase, hp, opens, closes, isConn, isUnbind, exceptOk]
      · rcases vw with e | o <;>
          simp [verifyPhase, hp, opens, closes, isConn, isUnbind, exceptOk]

/-- The verification phase always records the opening of connection 2 with
the resolved DN and the supplied password. -/
lemma verifyPhase_connect (cfg : AuthCfg) (env : DirEnv) (dn p : String) :
    Ev.connect 2 cfg.ldap_url (some (dn, p)) ∈ (verifyPhase cfg env dn p).2 := by
  obtain ⟨sb, sw, sr, vb, vw⟩ := env
  rcases vb with e | rc
  · simp [verifyPhase]
  · rcases hp : parse_bool cfg.ldap_support_extended with m | b
    · simp [verifyPhase, hp]
    · rcases b with _ | _
      · simp [verifyPhase, hp]
      · rcases vw with e | o <;> simp [verifyPhase, hp]

/-- The verification phase is oblivious to the search response stored in
the environment. -/
lemma verifyPhase_ignores_search (cfg : AuthCfg) (env : DirEnv)
    (x : Except LDAPErr (List LDAPEntry)) (dn p : String) :
    verifyPhase cfg { env with searchResult := x } dn p = verifyPhase cfg env dn p := by
  obtain ⟨sb, sw, sr, vb, vw⟩ := env
  rfl

/-- The result of a `login` call never depends on the service connection's
bind success flag or on the outcome of the service-side who-am-i probe. -/
lemma loginRun_result_ignores_service (cfg : AuthCfg) (sb sb2 : Bool)
    (sw sw2 : Except LDAPErr (Option String)) (sr : Except LDAPErr (List LDAPEntry))
    (vb : Except LDAPErr Nat) (vw : Except LDAPErr (Option String)) (l p : String) :
    (loginRun cfg ⟨sb, sw, sr, vb, vw⟩ l p).1 =
      (loginRun cfg ⟨sb2, sw2, sr, vb, vw⟩ l p).1 := by
  rcases sr with e | users
  · rfl
  · rcases users with _ | ⟨u, rest⟩
    · rfl
    · have hvv : verifyPhase cfg ⟨sb, sw, Except.ok (u :: rest), vb, vw⟩ u.dn p =
          verifyPhase cfg ⟨sb2, sw2, Except.ok (u :: rest), vb, vw⟩ u.dn p := rfl
      rw [loginRun_found_result cfg ⟨sb, sw, Except.ok (u :: rest), vb, vw⟩ l p u rest rfl,
          loginRun_found_result cfg ⟨sb2, sw2, Except.ok (u :: rest), vb, vw⟩ l p u rest rfl,
          hvv]

/-- C1: Whenever the search phase returns at least one entry, any exception
raised during the verification phase is caught inside login: the specific
failure category is logged, the failure marker is returned, and the caller
only ever receives the login string or the empty string. -/
theorem login_swallows_verification_errors (cfg : AuthCfg) (env : DirEnv) (l p : String)
    (u : LDAPEntry) (rest : List LDAPEntry)
    (hs : env.searchResult = Except.ok (u :: rest)) :
    ((loginRun cfg env l p).1 = Except.ok l ∨ (loginRun cfg env l p).1 = Except.ok "") ∧
    ((verifyPhase cfg env u.dn p).1 = Except.error LDAPErr.invalidCredentials →
      (loginRun cfg env l p).1 = Except.ok "" ∧
      Ev.log "LDAP invalid credentials" ∈ (loginRun cfg env l p).2) ∧
    (∀ m, (verifyPhase cfg env u.dn p).1 = Except.error (LDAPErr.err m) →
      (loginRun cfg env l p).1 = Except.ok "" ∧
      Ev.log ("LDAP error " ++ m) ∈ (loginRun cfg env l p).2) := by
  have hres := loginRun_found_result cfg env l p u rest hs
  refine ⟨?_, ?_, ?_⟩
  · rw [hres]
    rcases hv : (verifyPhase cfg env u.dn p).1 with e | b
    · simp
    · rcases b with _ | _ <;> simp
  · intro hv
    refine ⟨by simp [hres, hv], ?_⟩
    simp only [loginRun, hs]
    simp [hv]
  · intro m hv
    refine ⟨by simp [hres, hv], ?_⟩
    simp only [loginRun, hs]
    simp [hv]

/-- Witness for C1: invalid credentials on the verification bind are caught,
logged and collapsed to the failure marker. -/
theorem login_swallows_verification_errors_witness :
    envInvalid.searchResult = Except.ok (entA :: []) ∧
    (loginRun cfgA envInvalid "u" "pw").1 = Except.ok "" ∧
    Ev.log "LDAP invalid credentials" ∈ (loginRun cfgA envInvalid "u" "pw").2 :=
  ⟨rfl,
   ((login_swallows_verification_errors cfgA envInvalid "u" "pw" entA [] rfl).2.1 rfl).1,
   ((login_swallows_verification_errors cfgA envInvalid "u" "pw" entA [] rfl).2.1 rfl).2⟩

/-- Counterexample for C2: not every opened connection is released.  With
the fixture whose verification who-am-i raises, the verification connection
is opened but never unbound before the call returns; and with the fixture
whose search raises, the service connection is opened but never unbound. -/
theorem login_unbind_counterexample :
    opens (loginRun cfgA envBoom "u" "pw").2 2 = 1 ∧
    closes (loginRun cfgA envBoom "u" "pw").2 2 = 0 ∧
    opens (loginRun cfgA envSearchErr "u" "pw").2 1 = 1 ∧
    closes (loginRun cfgA envSearchErr "u" "pw").2 1 = 0 := by
  decide

/-- C2 (amended): the service connection is opened exactly once on every
path, and it is unbound exactly once whenever the search completes (with or
without entries) but never when the search raises; when the search found an
entry the verification connection is opened exactly once and is unbound
exactly when the verification phase raises no exception — on paths where
the verification bind, flag re-parse or confirmation raises, the
verification connection is never unbound; when no entry was found no
verification connection is opened at all. -/
theorem login_unbind_amended (cfg : AuthCfg) (env : DirEnv) (l p : String) :
    opens (loginRun cfg env l p).2 1 = 1 ∧
    (∀ users, env.searchResult = Except.ok users →
      closes (loginRun cfg env l p).2 1 = 1) ∧
    (∀ e, env.searchResult = Except.error e →
      closes (loginRun cfg env l p).2 1 = 0 ∧ opens (loginRun cfg env l p).2 2 = 0) ∧
    (env.searchResult = Except.ok [] → opens (loginRun cfg env l p).2 2 = 0) ∧
    (∀ u rest, env.searchResult = Except.ok (u :: rest) →
      opens (loginRun cfg env l p).2 2 = 1 ∧
      (∀ b, (verifyPhase cfg env u.dn p).1 = Except.ok b →
        closes (loginRun cfg env l p).2 2 = 1) ∧
      (∀ e, (verifyPhase cfg env u.dn p).1 = Except.error e →
        closes (loginRun cfg env l p).2 2 = 0)) := by
  obtain ⟨hp1, hp2⟩ := preTrace_opens cfg env l
  rcases hs : env.searchResult with e | users
  · have ht : (loginRun cfg env l p).2 = preTrace cfg env l := by
      simp [loginRun, hs]
    refine ⟨?_, ?_, ?_, ?_, ?_⟩
    · rw [ht]; exact hp1
    · intro users h
      simp at h
    · intro e2 h
      rw [ht]
      exact ⟨preTrace_closes cfg env l 1, hp2⟩
    · intro h
      simp at h
    · intro u rest h
      simp at h
  · rcases users with _ | ⟨u, rest⟩
    · have ht : (loginRun cfg env l p).2 =
          preTrace cfg env l ++ [Ev.unbind 1] ++
            [Ev.log ("LDAP user " ++ l ++ " not found")] := by
        simp [loginRun, hs]
      refine ⟨?_, ?_, ?_, ?_, ?_⟩
      · simp only [ht, opens_append, hp1]
        simp [opens, isConn]
      · intro users h
        simp only [ht, closes_append, preTrace_closes]
        simp [closes, isUnbind]
      · intro e h
        simp at h
      · intro h
        simp only [ht, opens_append, hp2]
        simp [opens, isConn]
      · intro u rest h
        simp at h
    · obtain ⟨msg, ht⟩ := loginRun_found_trace cfg env l p u rest hs
      obtain ⟨hv1, hv2, hv3, hv4⟩ := verifyPhase_counts cfg env u.dn p
      refine ⟨?_, ?_, ?_, ?_, ?_⟩
      · simp only [ht, opens_append, hp1, hv1]
        simp [opens, isConn]
      · intro users h
        simp only [ht, closes_append, preTrace_closes, hv2]
        simp [closes, isUnbind]
      · intro e h
        simp at h
      · intro h
        simp at h
      · intro u2 rest2 h
        simp only [Except.ok.injEq, List.cons.injEq] at h
        obtain ⟨h1, h2⟩ := h
        subst h1
        subst h2
        simp only [ht, opens_append, closes_append, hp2, hv3, hv4, preTrace_closes]
        refine ⟨?_, ?_, ?_⟩
        · simp [opens, isConn]
        · intro b hb
          simp [hb, exceptOk, closes, isUnbind]
        · intro e he
          simp [he, exceptOk, closes, isUnbind]

/-- Witness for C2 (amended): the service connection is unbound once on the
not-found completion and on the verification-exception path, where the
verification connection stays open; on the search-raise path the service
connection is not unbound. -/
theorem login_unbind_amended_witness :
    closes (loginRun cfgA envEmpty "u" "pw").2 1 = 1 ∧
    opens (loginRun cfgA envEmpty "u" "pw").2 2 = 0 ∧
    closes (loginRun cfgA envBoom "u" "pw").2 1 = 1 ∧
    closes (loginRun cfgA envBoom "u" "pw").2 2 = 0 ∧
    closes (loginRun cfgA envSearchErr "u" "pw").2 1 = 0 :=
  ⟨(login_unbind_amended cfgA envEmpty "u" "pw").2.1 [] rfl,
   (login_unbind_amended cfgA envEmpty "u" "pw").2.2.2.1 rfl,
   (login_unbind_amended cfgA envBoom "u" "pw").2.1 [entA] rfl,
   ((login_unbind_amended cfgA envBoom "u" "pw").2.2.2.2 entA [] rfl).2.2
     (LDAPErr.err "boom") rfl,
   ((login_unbind_amended cfgA envSearchErr "u" "pw").2.2.1
     (LDAPErr.err "search down") rfl).1⟩

/-- C4: When the search found an entry and the verification bind completed
with result code `rc`, extended confirmation enabled makes success
equivalent to who-am-i answering a non-empty identity, extended
confirmation disabled makes success equivalent to `rc = 0` regardless of
who-am-i, and a confirmed verification returns the original login. -/
theorem login_extended_toggle (cfg : AuthCfg) (env : DirEnv) (l p : String)
    (u : LDAPEntry) (rest : List LDAPEntry) (rc : Nat)
    (hs : env.searchResult = Except.ok (u :: rest))
    (hb : env.verifyBind = Except.ok rc) :
    (parse_bool cfg.ldap_support_extended = Except.ok true →
      ((verifyPhase cfg env u.dn p).1 = Except.ok true ↔
        whoamiTruthy env.verifyWhoAmI = true)) ∧
    (parse_bool cfg.ldap_support_extended = Except.ok false →
      ((verifyPhase cfg env u.dn p).1 = Except.ok true ↔ rc = 0)) ∧
    ((verifyPhase cfg env u.dn p).1 = Except.ok true →
      (loginRun cfg env l p).1 = Except.ok l) := by
  refine ⟨?_, ?_, ?_⟩
  · intro hp
    simp only [verifyPhase, hb, hp]
    rcases hw : env.verifyWhoAmI with e | o <;>
      simp [hw, whoamiTruthy]
  · intro hp
    simp [verifyPhase, hb, hp]
  · intro hv
    simp [loginRun_found_result cfg env l p u rest hs, hv]

/-- Witness for C4: with extended confirmation disabled, a zero bind result
code yields success even though who-am-i would raise, and the returned
value is the original login. -/
theorem login_extended_toggle_witness :
    envBoom.searchResult = Except.ok (entA :: []) ∧
    envBoom.verifyBind = Except.ok 0 ∧
    parse_bool cfgNoExt.ldap_support_extended = Except.ok false ∧
    ((verifyPhase cfgNoExt envBoom entA.dn "pw").1 = Except.ok true ↔ (0 : Nat) = 0) ∧
    (loginRun cfgNoExt envBoom "u" "pw").1 = Except.ok "u" :=
  ⟨rfl, rfl, rfl,
   (login_extended_toggle cfgNoExt envBoom "u" "pw" entA [] 0 rfl rfl).2.1 rfl,
   (login_extended_toggle cfgNoExt envBoom "u" "pw" entA [] 0 rfl rfl).2.2 rfl⟩

/-- C5: The outcome of the service bind is discarded and the who-am-i probe
on the service connection is best-effort: neither changes the result, a
probe error is merely logged, and the search is attempted regardless. -/
theorem login_service_bind_nonfatal (cfg : AuthCfg) (env : DirEnv) (l p : String)
    (b : Bool) (w : Except LDAPErr (Option String)) :
    (loginRun cfg { env with serviceBindOk := b } l p).1 = (loginRun cfg env l p).1 ∧
    (loginRun cfg { env with serviceWhoAmI := w } l p).1 = (loginRun cfg env l p).1 ∧
    Ev.search 1 cfg.ldap_base cfg.ldap_scope (filterString cfg l) [cfg.ldap_attribute] ∈
      (loginRun cfg env l p).2 ∧
    (∀ e, env.serviceWhoAmI = Except.error e →
      Ev.log ("LDAP error: " ++ errString e) ∈ (loginRun cfg env l p).2) := by
  obtain ⟨sb, sw, sr, vb, vw⟩ := env
  refine ⟨loginRun_result_ignores_service cfg b sb sw sw sr vb vw l p,
    loginRun_result_ignores_service cfg sb sb w sw sr vb vw l p, ?_, ?_⟩
  · refine (loginRun_trace_shape cfg ⟨sb, sw, sr, vb, vw⟩ l p).subset ?_
    simp [preTrace]
  · intro e he
    refine (loginRun_trace_shape cfg ⟨sb, sw, sr, vb, vw⟩ l p).subset ?_
    simp only at he
    simp [preTrace, probeLog, he]

/-- Witness for C5: a raising probe is logged while the call still searches
and succeeds. -/
theorem login_service_bind_nonfatal_witness :
    envProbeErr.serviceWhoAmI = Except.error (LDAPErr.err "probe") ∧
    Ev.log ("LDAP error: " ++ errString (LDAPErr.err "probe")) ∈
      (loginRun cfgA envProbeErr "u" "pw").2 ∧
    Ev.search 1 cfgA.ldap_base cfgA.ldap_scope (filterString cfgA "u") [cfgA.ldap_attribute] ∈
      (loginRun cfgA envProbeErr "u" "pw").2 ∧
    (loginRun cfgA { envProbeErr with serviceBindOk := false } "u" "pw").1 =
      (loginRun cfgA envProbeErr "u" "pw").1 :=
  ⟨rfl,
   (login_service_bind_nonfatal cfgA envProbeErr "u" "pw" false (Except.ok none)).2.2.2
     (LDAPErr.err "probe") rfl,
   (login_service_bind_nonfatal cfgA envProbeErr "u" "pw" false (Except.ok none)).2.2.1,
   (login_service_bind_nonfatal cfgA envProbeErr "u" "pw" false (Except.ok none)).1⟩

/-- C6: `parse_bool` is applied to the stored flag both by the
configuration load (aborting construction on a malformed value) and again
during every verification phase, where a malformed value raises rather
than being coerced. -/
theorem extended_flag_dual_parse (url base fs attr bd pw scope raw : String)
    (cfg : AuthCfg) (env : DirEnv) (dn p : String) (rc : Nat)
    (hraw : parse_bool raw = Except.error "Not a bool")
    (hcfg : cfg.ldap_support_extended = raw)
    (hb : env.verifyBind = Except.ok rc) :
    constructAuth url base fs attr bd pw scope raw = Except.error "Not a bool" ∧
    (verifyPhase cfg env dn p).1 = Except.error (LDAPErr.err "Not a bool") := by
  constructor
  · simp [constructAuth, hraw]
  · simp [verifyPhase, hb, hcfg, hraw]

/-- Witness for C6: the malformed value "maybe" aborts construction and
raises at the attempt-time checkpoint. -/
theorem extended_flag_dual_parse_witness :
    parse_bool "maybe" = Except.error "Not a bool" ∧
    constructAuth "ldap://h" "dc=e" "" "uid" "" "" "LEVEL" "maybe" =
      Except.error "Not a bool" ∧
    (verifyPhase cfgBad envOk "uid=u,dc=e" "pw").1 =
      Except.error (LDAPErr.err "Not a bool") :=
  ⟨rfl,
   (extended_flag_dual_parse "ldap://h" "dc=e" "" "uid" "" "" "LEVEL" "maybe"
     cfgBad envOk "uid=u,dc=e" "pw" 0 rfl rfl rfl).1,
   (extended_flag_dual_parse "ldap://h" "dc=e" "" "uid" "" "" "LEVEL" "maybe"
     cfgBad envOk "uid=u,dc=e" "pw" 0 rfl rfl rfl).2⟩

/-- C8: Only the first entry of the search response influences the call:
the entire outcome is unchanged by the entries after the first, and the
verification connection is opened with the first entry's DN. -/
theorem login_first_entry_only (cfg : AuthCfg) (env : DirEnv) (l p : String)
    (u : LDAPEntry) (r1 r2 : List LDAPEntry) :
    loginRun cfg { env with searchResult := Except.ok (u :: r1) } l p =
      loginRun cfg { env with searchResult := Except.ok (u :: r2) } l p ∧
    Ev.connect 2 cfg.ldap_url (some (u.dn, p)) ∈
      (loginRun cfg { env with searchResult := Except.ok (u :: r1) } l p).2 := by
  constructor
  · obtain ⟨sb, sw, sr, vb, vw⟩ := env
    rfl
  · obtain ⟨msg, ht⟩ :=
      loginRun_found_trace cfg { env with searchResult := Except.ok (u :: r1) } l p u r1
        (by simp)
    rw [ht]
    exact List.mem_append.mpr (Or.inl (List.mem_append.mpr
      (Or.inr (verifyPhase_connect cfg _ u.dn p))))

/-- C10: The attribute value read from the first entry never influences the
result: two entries with the same DN and different attribute values give
the same result, and a confirmed verification returns the raw login
argument, so success never requires the stored attribute value to equal the
supplied login. -/
theorem login_ignores_attribute_value (cfg : AuthCfg) (env : DirEnv) (l p : String)
    (u v : LDAPEntry) (rest : List LDAPEntry) (hdn : u.dn = v.dn) :
    (loginRun cfg { env with searchResult := Except.ok (u :: rest) } l p).1 =
      (loginRun cfg { env with searchResult := Except.ok (v :: rest) } l p).1 ∧
    ((verifyPhase cfg env u.dn p).1 = Except.ok true →
      (loginRun cfg { env with searchResult := Except.ok (u :: rest) } l p).1 =
        Except.ok l) := by
  obtain ⟨sb, sw, sr, vb, vw⟩ := env
  have e1 := loginRun_found_result cfg ⟨sb, sw, Except.ok (u :: rest), vb, vw⟩
    l p u rest rfl
  have e2 := loginRun_found_result cfg ⟨sb, sw, Except.ok (v :: rest), vb, vw⟩
    l p v rest rfl
  have hvv : verifyPhase cfg ⟨sb, sw, Except.ok (u :: rest), vb, vw⟩ u.dn p =
      verifyPhase cfg ⟨sb, sw, Except.ok (v :: rest), vb, vw⟩ v.dn p := by
    rw [hdn]
    exact rfl
  have hsr : verifyPhase cfg ⟨sb, sw, sr, vb, vw⟩ u.dn p =
      verifyPhase cfg ⟨sb, sw, Except.ok (u :: rest), vb, vw⟩ u.dn p := rfl
  constructor
  · rw [e1, e2, hvv]
  · intro hver
    rw [hsr] at hver
    rw [e1, hver]

/-- Witness for C10: an entry whose stored attribute value differs from the
supplied login still authenticates, returning the raw login. -/
theorem login_ignores_attribute_value_witness :
    entA.dn = (⟨"uid=u,dc=e", "DIFFERENT"⟩ : LDAPEntry).dn ∧
    (loginRun cfgA { envOk with searchResult := Except.ok (entA :: []) } "u" "pw").1 =
      (loginRun cfgA { envOk with
        searchResult := Except.ok (⟨"uid=u,dc=e", "DIFFERENT"⟩ :: []) } "u" "pw").1 ∧
    (loginRun cfgA { envOk with searchResult := Except.ok (entA :: []) } "u" "pw").1 =
      Except.ok "u" :=
  ⟨rfl,
   (login_ignores_attribute_value cfgA envOk "u" "pw" entA
     ⟨"uid=u,dc=e", "DIFFERENT"⟩ [] rfl).1,
   (login_ignores_attribute_value cfgA envOk "u" "pw" entA
     ⟨"uid=u,dc=e", "DIFFERENT"⟩ [] rfl).2 rfl⟩

end RadicaleLdapAuth
